import Mathlib

/-!
Verification of the grid ingestion, spatial resolution and scoring engine of
`src/main.py` (an accessibility-score service for Belgian addresses).

The Python source is shallowly embedded: Python `float` values are modelled as
rationals (all arithmetic the claims exercise — halving, addition, comparison,
rounding at 2 decimals — is exact on the grid data), Python `int` as `Int`,
Python `None` as `Option.none`, CSV rows as lists of strings, `dict` lookups as
association-list / last-occurrence lookups matching the dict-comprehension and
`dict(zip(...))` semantics that the source relies on, and fatal
`raise SystemExit` as `Except.error`.

The numeric-string parsers model Python `float()` and `int()` on optionally
signed decimal literals with an optional exponent part (surrounding whitespace
stripped); exotic accepted forms of CPython (`inf`, `nan`, digit underscores)
do not occur in the grid data and are modelled as parse failures.
-/

/-- Strip leading and trailing whitespace, the behaviour of Python `str.strip()`
and of the `.strip()` calls in the source (implemented on the character list so
that it evaluates by kernel reduction, unlike `String.trim`). -/
def trimChars (cs : List Char) : List Char :=
  ((cs.dropWhile Char.isWhitespace).reverse.dropWhile Char.isWhitespace).reverse

/-- `s.replace(",", ".")` of the source: with a one-character pattern the
Python substring replacement is exactly a character map. -/
def commaToDot (s : String) : String :=
  ⟨s.data.map (fun c => if c == ',' then '.' else c)⟩

/-- `col.endswith("_Classe_10")` of the source (suffix test on character
lists). -/
def hasClasse10Suffix (s : String) : Bool :=
  List.isPrefixOf "_Classe_10".data.reverse s.data.reverse

/-- Value of a digit character. -/
def digitVal (c : Char) : ℕ := c.toNat - 48

/-- Numeric value of a digit string, most significant first. -/
def digitsToNat (cs : List Char) : ℕ :=
  cs.foldl (fun a c => 10 * a + digitVal c) 0

/-- All characters are decimal digits. -/
def allDigits (cs : List Char) : Bool :=
  cs.all Char.isDigit

/-- Mantissa of a Python float literal: `digits`, `digits.digits`, `digits.`
or `.digits` (at least one digit overall, at most one dot). -/
def parseMantissa (cs : List Char) : Option ℚ :=
  match cs.span (fun c => c != '.') with
  | (ip, []) =>
      if !ip.isEmpty && allDigits ip then some (digitsToNat ip) else none
  | (ip, _ :: fp) =>
      if !(ip.isEmpty && fp.isEmpty) && allDigits ip && allDigits fp then
        some ((digitsToNat ip : ℚ) + (digitsToNat fp : ℚ) / (10 ^ fp.length))
      else none

/-- An optionally signed run of digits, as in a Python int literal or a float
exponent part. -/
def parseSignedDigits : List Char → Option ℤ
  | '+' :: cs =>
      if !cs.isEmpty && allDigits cs then some (digitsToNat cs) else none
  | '-' :: cs =>
      if !cs.isEmpty && allDigits cs then some (-(digitsToNat cs : ℤ)) else none
  | cs =>
      if !cs.isEmpty && allDigits cs then some (digitsToNat cs) else none

/-- Model of Python `float(s)` on decimal literals: optional surrounding
whitespace, optional sign, mantissa, optional `e`/`E` exponent. -/
def parsePyFloat (s : String) : Option ℚ :=
  let cs := trimChars s.data
  let signAndRest : ℚ × List Char :=
    match cs with
    | '+' :: r => (1, r)
    | '-' :: r => (-1, r)
    | r => (1, r)
  match signAndRest.2.span (fun c => c != 'e' && c != 'E') with
  | (m, []) => (parseMantissa m).map (fun q => signAndRest.1 * q)
  | (m, _ :: ex) =>
      match parseMantissa m, parseSignedDigits ex with
      | some q, some e => some (signAndRest.1 * q * (10 : ℚ) ^ e)
      | _, _ => none

/-- Model of Python `int(s)` on string input: optional surrounding whitespace,
optional sign, digits (a decimal point is a failure, exactly as in Python). -/
def parsePyInt (s : String) : Option ℤ :=
  parseSignedDigits (trimChars s.data)

/-- Truncation toward zero, the behaviour of Python `int(float)`. -/
def truncQ (q : ℚ) : ℤ :=
  if 0 ≤ q then ⌊q⌋ else -⌊-q⌋

/-- Round to the nearest integer, ties to even — the rounding mode of Python
`round`. -/
def roundHalfEven (q : ℚ) : ℤ :=
  let f := ⌊q⌋
  let r := q - f
  if r < 1 / 2 then f
  else if 1 / 2 < r then f + 1
  else if f % 2 = 0 then f else f + 1

/-- Model of Python `round(x, 2)`. -/
def round2 (q : ℚ) : ℚ :=
  (roundHalfEven (q * 100) : ℚ) / 100

/-- A Python numeric value: the source stores `int` for the class-10 columns
and `float` for the percentile columns. -/
inductive PyNum where
  | pInt (z : ℤ)
  | pFloat (q : ℚ)
deriving DecidableEq

/-- Extract an integer value, `none` otherwise. -/
def PyNum.asInt : Option PyNum → Option ℤ
  | some (.pInt z) => some z
  | _ => none

/-- Index of the last occurrence of `key` in `l`, if any.  This is the
determinant of both dict constructions in the source: in a Python dict built
by iterated assignment the last assignment to a key wins. -/
def lastIdxOf (l : List String) (key : String) : Option ℕ :=
  ((List.range l.length).filter (fun i => l.get? i == some key)).getLast?

/-- `header_map.get(key)` of the source: `header_map` maps each trimmed header
name to the raw header text (last occurrence wins, as in the dict
comprehension of line 73). -/
def headerMapGet (headers : List String) (key : String) : Option String :=
  (headers.filter (fun h => trimChars h.data == key.data)).getLast?

/-- `row[key]` for a `csv.DictReader` row: the row dict has one key per
fieldname; a row shorter than the header is padded with `None` (outer `none` =
key not present, `some none` = present with value `None`). -/
def rowGet (headers : List String) (row : List String) (key : String) :
    Option (Option String) :=
  match lastIdxOf headers key with
  | none => none
  | some i => some (row.get? i)

/-- The four mandatory columns of `load_cases` (line 75). -/
def required_cols : List String :=
  ["id", "X_LB2008", "Y_LB2008", "ms_len"]

/-- The six optional analysis columns of `load_cases` (lines 88–95). -/
def optional_cols : List String :=
  [ "Score TC total sans TGV 24h %"
  , "Score TC train (SNCB) 24h %"
  , "Score TC MTB 24h %"
  , "Score TC total sans TGV 24h_Classe_10"
  , "Score TC train (SNCB) 24h_Classe_10"
  , "Score TC MTB 24h_Classe_10" ]

/-- The optional-column loop body of `load_cases` (lines 107–119): absent
column, `None` value, blank value or failed parse record `none`; a
`_Classe_10` column parses as `int(float(·))`, any other as
`round(float(·), 2)`. -/
def optionalValue (headers : List String) (row : List String) (col : String) :
    Option PyNum :=
  let raw_col_name := (headerMapGet headers col).getD col
  match rowGet headers row raw_col_name with
  | some (some s) =>
      if !(trimChars s.data).isEmpty then
        let val_str := commaToDot s
        match parsePyFloat val_str with
        | none => none
        | some q =>
            if hasClasse10Suffix col then some (.pInt (truncQ q))
            else some (.pFloat (round2 q))
      else none
  | _ => none

/-- The mandatory-field block of `load_cases` (lines 98–104): `int(row[id])`,
`float(row[X].replace(",", "."))`, likewise for Y and `ms_len`; any failure
(including a `None` cell from a short row) fails the whole row. -/
def mandatoryVals (headers : List String) (row : List String) :
    Option (ℤ × ℚ × ℚ × ℚ) := do
  let id_key ← headerMapGet headers "id"
  let x_key ← headerMapGet headers "X_LB2008"
  let y_key ← headerMapGet headers "Y_LB2008"
  let len_key ← headerMapGet headers "ms_len"
  let idS ← (rowGet headers row id_key).join
  let id_val ← parsePyInt idS
  let xS ← (rowGet headers row x_key).join
  let x_center ← parsePyFloat (commaToDot xS)
  let yS ← (rowGet headers row y_key).join
  let y_center ← parsePyFloat (commaToDot yS)
  let lenS ← (rowGet headers row len_key).join
  let size ← parsePyFloat (commaToDot lenS)
  pure (id_val, x_center, y_center, size)

/-- One loaded grid cell (the `case` dict built at lines 123–135). -/
structure Cell where
  id : ℤ
  score : Option ℤ
  x_min : ℚ
  x_max : ℚ
  y_min : ℚ
  y_max : ℚ
  center_x : ℚ
  center_y : ℚ
  size : ℚ
  extras : List (String × Option PyNum)
deriving DecidableEq

/-- `extras.get(col)` on the extras dict (all six keys are always set by the
loader, so a missing key and a `None` value coincide on loader output). -/
def extrasGet (e : List (String × Option PyNum)) (col : String) : Option PyNum :=
  match e.lookup col with
  | some v => v
  | none => none

/-- The per-row cell construction of `load_cases` (lines 97–136): mandatory
fields or skip, then extras, then derived bounds from center and size. -/
def buildCase (headers : List String) (row : List String) : Option Cell :=
  match mandatoryVals headers row with
  | none => none
  | some (id_val, x_center, y_center, size) =>
      let extras := optional_cols.map (fun col => (col, optionalValue headers row col))
      let half := size / 2
      some
        { id := id_val
        , score := PyNum.asInt (extrasGet extras "Score TC total sans TGV 24h_Classe_10")
        , x_min := x_center - half
        , x_max := x_center + half
        , y_min := y_center - half
        , y_max := y_center + half
        , center_x := x_center
        , center_y := y_center
        , size := size
        , extras := extras }

/-- A CSV source as seen through `csv.DictReader`: the header row (empty list
models the falsy `fieldnames` of an empty or blank-headed file) and the data
rows. -/
structure CsvFile where
  fieldnames : List String
  rows : List (List String)

/-- `load_cases` (lines 45–139).  The argument is `none` when the file does
not exist; `Except.error` models the fatal `raise SystemExit` paths. -/
def load_cases (file : Option CsvFile) : Except String (List Cell) :=
  match file with
  | none => Except.error "Fichier CSV introuvable"
  | some f =>
      if f.fieldnames = [] then
        Except.error "Impossible de lire les en-tetes du CSV."
      else
        if required_cols.filter (fun r => (headerMapGet f.fieldnames r).isNone) ≠ [] then
          Except.error "Colonnes manquantes dans grid_scores.csv"
        else
          let cases := f.rows.filterMap (buildCase f.fieldnames)
          if cases = [] then
            Except.error "Aucune case valide trouvee dans grid_scores.csv."
          else Except.ok cases

/-- Point-in-cell test of line 175: half-open on both axes. -/
def inCell (c : Cell) (x y : ℚ) : Prop :=
  c.x_min ≤ x ∧ x < c.x_max ∧ c.y_min ≤ y ∧ y < c.y_max

instance (c : Cell) (x y : ℚ) : Decidable (inCell c x y) := by
  unfold inCell; infer_instance

/-- `find_case_for_point` (lines 173–177): first match in load order, `None`
when no cell contains the point. -/
def find_case_for_point (cases : List Cell) (x y : ℚ) : Option Cell :=
  cases.find? (fun c => decide (inCell c x y))

/-- `classify` (lines 180–195). -/
def classify : Option ℤ → Option String
  | none => none
  | some score10 =>
      if score10 ≤ 2 then some "très faible"
      else if score10 ≤ 4 then some "faible à moyenne"
      else if score10 ≤ 6 then some "moyenne à correcte"
      else if score10 ≤ 8 then some "bonne à très bonne"
      else some "excellente"

/-- `CLASS10_COMMENTS` (lines 31–42): the static comment per class 1–10;
any other key is absent from the dict. -/
def CLASS10_COMMENTS (k : ℤ) : Option String :=
  if k = 1 then some "Accessibilité très faible"
  else if k = 2 then some "Accessibilité faible"
  else if k = 3 then some "Inférieure à la moyenne"
  else if k = 4 then some "Légèrement inférieure à la moyenne"
  else if k = 5 then some "Moyenne"
  else if k = 6 then some "Légèrement supérieure à la moyenne"
  else if k = 7 then some "Bonne accessibilité"
  else if k = 8 then some "Très bonne accessibilité"
  else if k = 9 then some "Excellente accessibilité"
  else if k = 10 then some "Accessibilité exceptionnelle"
  else none

/-- `CLASS10_COMMENTS.get(k, None)` where `k` may be Python `None` (`None` is
never a key of the dict, so it yields the default). -/
def class10Comment : Option ℤ → Option String
  | none => none
  | some k => CLASS10_COMMENTS k

/-- Extract a float value, `none` otherwise (the percentile fields of the
analysis). -/
def PyNum.asFloat : Option PyNum → Option ℚ
  | some (.pFloat q) => some q
  | _ => none

/-- One metric block of `build_accessibility_analysis`. -/
structure MetricAnalysis where
  percentile : Option ℚ
  score10 : Option ℤ
  score10_comment : Option String
deriving DecidableEq

/-- The three-metric analysis dict. -/
structure Analysis where
  total : MetricAnalysis
  train : MetricAnalysis
  mtb : MetricAnalysis
deriving DecidableEq

/-- One metric block: percentile column value, class-10 column value, and the
class-10 comment looked up with default `None`. -/
def metricAnalysis (e : List (String × Option PyNum)) (pctCol cls10Col : String) :
    MetricAnalysis :=
  { percentile := PyNum.asFloat (extrasGet e pctCol)
  , score10 := PyNum.asInt (extrasGet e cls10Col)
  , score10_comment := class10Comment (PyNum.asInt (extrasGet e cls10Col)) }

/-- `build_accessibility_analysis` (lines 198–227). -/
def build_accessibility_analysis (c : Cell) : Analysis :=
  { total := metricAnalysis c.extras "Score TC total sans TGV 24h %"
      "Score TC total sans TGV 24h_Classe_10"
  , train := metricAnalysis c.extras "Score TC train (SNCB) 24h %"
      "Score TC train (SNCB) 24h_Classe_10"
  , mtb := metricAnalysis c.extras "Score TC MTB 24h %"
      "Score TC MTB 24h_Classe_10" }

/-- The `case` part of the response of `score_by_address` (lines 249–264). -/
structure ResolveResult where
  id : ℤ
  score10 : Option ℤ
  classe : Option String
  center_x : ℚ
  center_y : ℚ
  x_min : ℚ
  x_max : ℚ
  y_min : ℚ
  y_max : ℚ
  size : ℚ
  analysis : Analysis
deriving DecidableEq

/-- The resolution core of `score_by_address` (lines 238–266), after
geocoding and projection have produced the Lambert-2008 point `(x, y)`:
the `HTTPException(404)` of line 240 is the `Except.error`. -/
def score_by_address (cases : List Cell) (x y : ℚ) : Except String ResolveResult :=
  match find_case_for_point cases x y with
  | none => Except.error "Adresse hors de la zone de la grille"
  | some c =>
      Except.ok
        { id := c.id
        , score10 := c.score
        , classe := classify c.score
        , center_x := c.center_x
        , center_y := c.center_y
        , x_min := c.x_min
        , x_max := c.x_max
        , y_min := c.y_min
        , y_max := c.y_max
        , size := c.size
        , analysis := build_accessibility_analysis c }

/-- Header with exactly the four mandatory columns. -/
def hdrs4 : List String :=
  ["id", "X_LB2008", "Y_LB2008", "ms_len"]

/-- Header of the one-cell end-to-end grid of the spec: the four mandatory
columns plus the headline class-10 column. -/
def hdrsC2 : List String :=
  ["id", "X_LB2008", "Y_LB2008", "ms_len", "Score TC total sans TGV 24h_Classe_10"]

/-- One-cell grid source: `id=1`, center `(1000, 1000)`, size `100`,
class-10 score `7`. -/
def fileC2 : CsvFile :=
  ⟨hdrsC2, [["1", "1000", "1000", "100", "7"]]⟩

/-- The cell that loading `fileC2` produces. -/
def cellC2 : Cell :=
  { id := 1
  , score := some 7
  , x_min := 950
  , x_max := 1050
  , y_min := 950
  , y_max := 1050
  , center_x := 1000
  , center_y := 1000
  , size := 100
  , extras :=
      [ ("Score TC total sans TGV 24h %", none)
      , ("Score TC train (SNCB) 24h %", none)
      , ("Score TC MTB 24h %", none)
      , ("Score TC total sans TGV 24h_Classe_10", some (.pInt 7))
      , ("Score TC train (SNCB) 24h_Classe_10", none)
      , ("Score TC MTB 24h_Classe_10", none) ]
  }

/-- Grid source whose single row has `ms_len = "0"`: a zero-size cell. -/
def fileC4 : CsvFile :=
  ⟨hdrs4, [["1", "10", "20", "0"]]⟩

/-- The degenerate cell that loading `fileC4` produces: size `0` and
`x_min = x_max`. -/
def cellC4 : Cell :=
  { id := 1
  , score := none
  , x_min := 10
  , x_max := 10
  , y_min := 20
  , y_max := 20
  , center_x := 10
  , center_y := 20
  , size := 0
  , extras :=
      [ ("Score TC total sans TGV 24h %", none)
      , ("Score TC train (SNCB) 24h %", none)
      , ("Score TC MTB 24h %", none)
      , ("Score TC total sans TGV 24h_Classe_10", none)
      , ("Score TC train (SNCB) 24h_Classe_10", none)
      , ("Score TC MTB 24h_Classe_10", none) ]
  }

/-- A data row carrying the spec's locale-format literals in the coordinate
and size columns (under the header `hdrs4`). -/
def rowC5 : List String :=
  ["7", "525484,4046", "100,0", "100,0"]

/-- C1: the spatial lookup returns a cell iff that cell contains the point in
the half-open sense (`x_min ≤ x < x_max` and `y_min ≤ y < y_max`) and it is
the first such cell in load order; it returns `none` iff no loaded cell
contains the point. -/
theorem find_case_for_point_characterization (cases : List Cell) (x y : ℚ) :
    (∀ c : Cell, find_case_for_point cases x y = some c ↔
        inCell c x y ∧ ∃ l1 l2, cases = l1 ++ c :: l2 ∧ ∀ c2 ∈ l1, ¬ inCell c2 x y)
    ∧ (find_case_for_point cases x y = none ↔ ∀ c ∈ cases, ¬ inCell c x y) := by
  constructor
  · intro c
    rw [find_case_for_point, List.find?_eq_some]
    simp
  · rw [find_case_for_point, List.find?_eq_none]
    simp

/-- C2: the resolution core fails with the not-found error iff the spatial
lookup finds no cell; on the one-cell grid (`id=1`, center `(1000,1000)`,
size `100`, class-10 score `7`) the point `(1020, 980)` resolves to `id = 1`,
headline score `7`, together with the bounds, the center and the size of the
cell. -/
theorem score_by_address_not_found_iff :
    (∀ (cases : List Cell) (x y : ℚ),
        (∃ e, score_by_address cases x y = Except.error e) ↔
          find_case_for_point cases x y = none)
    ∧ load_cases (some fileC2) = Except.ok [cellC2]
    ∧ ∃ r, score_by_address [cellC2] 1020 980 = Except.ok r ∧
        r.id = 1 ∧ r.score10 = some 7 ∧
        r.x_min = 950 ∧ r.x_max = 1050 ∧ r.y_min = 950 ∧ r.y_max = 1050 ∧
        r.center_x = 1000 ∧ r.center_y = 1000 ∧ r.size = 100 := by
  refine ⟨fun cases x y => ?_, by with_unfolding_all rfl, ?_⟩
  · unfold score_by_address
    cases h : find_case_for_point cases x y <;> simp [h]
  · exact ⟨_, by with_unfolding_all rfl, by with_unfolding_all rfl,
      by with_unfolding_all rfl, by with_unfolding_all rfl, by with_unfolding_all rfl,
      by with_unfolding_all rfl, by with_unfolding_all rfl, by with_unfolding_all rfl,
      by with_unfolding_all rfl, by with_unfolding_all rfl⟩

/-- C3 counterexample: under the claimed threshold scheme every score below
1000 falls in the first bucket, so 1 and 999 would get the same label; the
classifier of the code gives them different labels. -/
theorem classify_not_four_buckets :
    classify (some 1) = some "très faible" ∧
    classify (some 999) = some "excellente" ∧
    classify (some 1) ≠ classify (some 999) := by
  refine ⟨rfl, by decide, by decide⟩

/-- C3 amended: the code has a single classifier and no variant switch;
`classify` maps `None` to `None` and an integer score to one of five labels
by ascending comparison, with bucket bounds 2, 4, 6 and 8. -/
theorem classify_five_buckets (n : ℤ) :
    classify none = none ∧
    (n ≤ 2 → classify (some n) = some "très faible") ∧
    (2 < n → n ≤ 4 → classify (some n) = some "faible à moyenne") ∧
    (4 < n → n ≤ 6 → classify (some n) = some "moyenne à correcte") ∧
    (6 < n → n ≤ 8 → classify (some n) = some "bonne à très bonne") ∧
    (8 < n → classify (some n) = some "excellente") := by
  refine ⟨rfl, fun h => ?_, fun h1 h2 => ?_, fun h1 h2 => ?_, fun h1 h2 => ?_, fun h => ?_⟩ <;>
    · simp only [classify]
      split_ifs <;> first | rfl | omega

theorem classify_five_buckets_witness :
    classify (some 3) = some "faible à moyenne" ∧
    classify (some 9) = some "excellente" :=
  ⟨(classify_five_buckets 3).2.2.1 (by decide) (by decide),
   (classify_five_buckets 9).2.2.2.2.2 (by decide)⟩

/-- C10: on every non-null integer input `classify` returns one of its five
fixed labels (never `None`), with every integer at most 2 mapped to the
lowest label and every integer at least 9 mapped to the top label — unlike
the class-10 comment table, where out-of-range classes yield `None`. -/
theorem classify_total_on_ints (n : ℤ) :
    (∃ s, classify (some n) = some s ∧
        s ∈ ["très faible", "faible à moyenne", "moyenne à correcte",
             "bonne à très bonne", "excellente"]) ∧
    (n ≤ 2 → classify (some n) = some "très faible") ∧
    (9 ≤ n → classify (some n) = some "excellente") ∧
    class10Comment (some 0) = none ∧ class10Comment (some 11) = none := by
  refine ⟨?_, fun h => ?_, fun h => ?_, by decide, by decide⟩ <;>
    · simp only [classify]
      split_ifs <;> first | exact ⟨_, rfl, by simp⟩ | rfl | omega

theorem classify_total_on_ints_witness :
    classify (some 0) = some "très faible" ∧ classify (some 11) = some "excellente" :=
  ⟨(classify_total_on_ints 0).2.1 (by decide), (classify_total_on_ints 11).2.2.1 (by decide)⟩

/-- C4 counterexample: the loader accepts a row with `ms_len = "0"` and the
resulting collection contains a cell with `size = 0` and collapsed bounds, so
the loader does admit cells with non-positive size. -/
theorem loader_admits_size_zero :
    load_cases (some fileC4) = Except.ok [cellC4] ∧
    ¬ (0 < cellC4.size) ∧ cellC4.x_min = cellC4.x_max ∧ cellC4.y_min = cellC4.y_max := by
  exact ⟨by with_unfolding_all rfl, by with_unfolding_all decide, rfl, rfl⟩

/-- C4 amended: every loaded cell has the derived bounds
`center ± size / 2`, hence well-formed bounds whenever `size > 0`; the loader
does not validate the size, so non-positive sizes are admitted (see the
counterexample). -/
theorem loader_bounds_wellformed (file : Option CsvFile) (cs : List Cell) (c : Cell)
    (hload : load_cases file = Except.ok cs) (hmem : c ∈ cs) :
    c.x_min = c.center_x - c.size / 2 ∧ c.x_max = c.center_x + c.size / 2 ∧
    c.y_min = c.center_y - c.size / 2 ∧ c.y_max = c.center_y + c.size / 2 ∧
    (0 < c.size → c.x_min < c.x_max ∧ c.y_min < c.y_max) := by
  cases file with
  | none => simp [load_cases] at hload
  | some f =>
    simp only [load_cases] at hload
    split_ifs at hload
    simp only [Except.ok.injEq] at hload
    subst hload
    obtain ⟨row, hrow, hbc⟩ := List.mem_filterMap.mp hmem
    simp only [buildCase] at hbc
    cases hmv : mandatoryVals f.fieldnames row with
    | none => rw [hmv] at hbc; exact absurd hbc (by simp)
    | some v =>
      obtain ⟨i, xc, yc, sz⟩ := v
      rw [hmv] at hbc
      simp only [Option.some.injEq] at hbc
      subst hbc
      refine ⟨rfl, rfl, rfl, rfl, fun hpos => ⟨by linarith, by linarith⟩⟩

theorem loader_bounds_wellformed_witness :
    cellC2.x_min < cellC2.x_max ∧ cellC2.y_min < cellC2.y_max :=
  (loader_bounds_wellformed (some fileC2) [cellC2] cellC2 (by with_unfolding_all rfl)
      (by simp)).2.2.2.2 (by with_unfolding_all decide)

/-- C5: numeric cells are normalized from comma to period before float
parsing: the text `"525484,4046"` parses to `525484.4046` and `"100,0"` to
`100.0`, both standalone and through the mandatory-field parsing of a row. -/
theorem comma_decimal_parsing :
    parsePyFloat (commaToDot "525484,4046") = some (5254844046 / 10000 : ℚ) ∧
    parsePyFloat (commaToDot "100,0") = some (100 : ℚ) ∧
    mandatoryVals hdrs4 rowC5 = some (7, 5254844046 / 10000, 100, 100) := by
  exact ⟨by with_unfolding_all rfl, by with_unfolding_all rfl, by with_unfolding_all rfl⟩

/-- C6: for a configured optional column, an absent column, a `None` cell, a
blank cell or a failed parse records `none`; otherwise a `_Classe_10` column
records the float value truncated to an integer and any other column records
the float value rounded to 2 decimal places. -/
theorem optional_column_null_or_parsed (headers row : List String) (col : String)
    (_hcol : col ∈ optional_cols) :
    (rowGet headers row ((headerMapGet headers col).getD col) = none →
        optionalValue headers row col = none) ∧
    (rowGet headers row ((headerMapGet headers col).getD col) = some none →
        optionalValue headers row col = none) ∧
    (∀ s, rowGet headers row ((headerMapGet headers col).getD col) = some (some s) →
        trimChars s.data = [] → optionalValue headers row col = none) ∧
    (∀ s, rowGet headers row ((headerMapGet headers col).getD col) = some (some s) →
        trimChars s.data ≠ [] → parsePyFloat (commaToDot s) = none →
        optionalValue headers row col = none) ∧
    (∀ s q, rowGet headers row ((headerMapGet headers col).getD col) = some (some s) →
        trimChars s.data ≠ [] → parsePyFloat (commaToDot s) = some q →
        optionalValue headers row col =
          (if hasClasse10Suffix col then some (.pInt (truncQ q))
           else some (.pFloat (round2 q)))) := by
  refine ⟨fun h => ?_, fun h => ?_, fun s h hs => ?_, fun s h hs hp => ?_,
      fun s q h hs hp => ?_⟩ <;> simp only [optionalValue] <;> rw [h]
  · simp [hs]
  · simp [hs, hp]
  · simp [hs, hp]

theorem optional_column_null_or_parsed_witness :
    optionalValue hdrs4 ["1", "10", "20", "100"] "Score TC MTB 24h %" = none ∧
    optionalValue hdrsC2 ["1", "10", "20", "100", "7"]
        "Score TC total sans TGV 24h_Classe_10" = some (.pInt 7) :=
  ⟨(optional_column_null_or_parsed hdrs4 ["1", "10", "20", "100"] "Score TC MTB 24h %"
      (by decide)).1 (by with_unfolding_all rfl),
   ((optional_column_null_or_parsed hdrsC2 ["1", "10", "20", "100", "7"]
      "Score TC total sans TGV 24h_Classe_10" (by decide)).2.2.2.2
      "7" 7 (by with_unfolding_all rfl) (by decide) (by with_unfolding_all rfl)).trans
    (by with_unfolding_all rfl)⟩

/-- C7: the class-10 table maps each class 1–10 to one of its ten fixed
comments (class 5 to the comment for average accessibility), while a `None`
class and out-of-range classes such as 0 or 11 give `None`; the analysis
builder derives its comment fields through exactly this lookup. -/
theorem class10_comment_table :
    class10Comment (some 5) = some "Moyenne" ∧
    class10Comment none = none ∧
    class10Comment (some 0) = none ∧
    class10Comment (some 11) = none ∧
    (∀ k : ℤ, 1 ≤ k → k ≤ 10 → ∃ s, class10Comment (some k) = some s ∧
        s ∈ [ "Accessibilité très faible", "Accessibilité faible",
              "Inférieure à la moyenne", "Légèrement inférieure à la moyenne",
              "Moyenne", "Légèrement supérieure à la moyenne",
              "Bonne accessibilité", "Très bonne accessibilité",
              "Excellente accessibilité", "Accessibilité exceptionnelle" ]) ∧
    (∀ k : ℤ, k < 1 ∨ 10 < k → class10Comment (some k) = none) ∧
    (∀ c : Cell, (build_accessibility_analysis c).total.score10_comment =
        class10Comment ((build_accessibility_analysis c).total.score10)) := by
  refine ⟨by decide, rfl, by decide, by decide, ?_, ?_, fun c => rfl⟩
  · intro k h1 h2
    interval_cases k <;> exact ⟨_, rfl, by simp⟩
  · intro k hk
    simp only [class10Comment, CLASS10_COMMENTS]
    split_ifs <;> first | rfl | omega

theorem class10_comment_table_witness :
    ∃ s, class10Comment (some 7) = some s ∧
      s ∈ [ "Accessibilité très faible", "Accessibilité faible",
            "Inférieure à la moyenne", "Légèrement inférieure à la moyenne",
            "Moyenne", "Légèrement supérieure à la moyenne",
            "Bonne accessibilité", "Très bonne accessibilité",
            "Excellente accessibilité", "Accessibilité exceptionnelle" ] :=
  class10_comment_table.2.2.2.2.1 7 (by decide) (by decide)

/-- C8: a row whose mandatory fields fail conversion contributes no cell —
the loaded collection is the same as if the row were not there — and any cell
a lookup returns comes from some other row. -/
theorem bad_row_silently_skipped (headers row : List String)
    (rows1 rows2 : List (List String)) (h : mandatoryVals headers row = none) :
    (rows1 ++ row :: rows2).filterMap (buildCase headers) =
      (rows1 ++ rows2).filterMap (buildCase headers) ∧
    ∀ (x y : ℚ) (c : Cell),
        find_case_for_point ((rows1 ++ row :: rows2).filterMap (buildCase headers)) x y =
          some c →
        ∃ r ∈ rows1 ++ rows2, buildCase headers r = some c := by
  have hb : buildCase headers row = none := by simp [buildCase, h]
  have heq : (rows1 ++ row :: rows2).filterMap (buildCase headers) =
      (rows1 ++ rows2).filterMap (buildCase headers) := by
    simp [List.filterMap_append, List.filterMap_cons, hb]
  refine ⟨heq, fun x y c hf => ?_⟩
  rw [heq] at hf
  exact List.mem_filterMap.mp (List.mem_of_find?_eq_some hf)

theorem bad_row_silently_skipped_witness :
    [["1", "1000", "1000", "abc"]].filterMap (buildCase hdrs4) = [] :=
  (bad_row_silently_skipped hdrs4 ["1", "1000", "1000", "abc"] [] []
    (by with_unfolding_all rfl)).1

/-- C9: the load fails exactly when the file is missing, the header is
unreadable, a mandatory column is absent from the trimmed header, or no valid
cell is produced from the rows; any successful load returns the non-empty
collection of cells built from the rows. -/
theorem load_cases_fatal_iff (file : Option CsvFile) :
    ((∃ e, load_cases file = Except.error e) ↔
        file = none ∨ ∃ f, file = some f ∧
          (f.fieldnames = [] ∨
           (∃ r ∈ required_cols, headerMapGet f.fieldnames r = none) ∨
           f.rows.filterMap (buildCase f.fieldnames) = [])) ∧
    ∀ cs, load_cases file = Except.ok cs →
        cs ≠ [] ∧ ∃ f, file = some f ∧ cs = f.rows.filterMap (buildCase f.fieldnames) := by
  cases file with
  | none =>
    refine ⟨by simp [load_cases], fun cs h => ?_⟩
    simp [load_cases] at h
  | some f =>
    have hreq : (required_cols.filter
          (fun r => (headerMapGet f.fieldnames r).isNone) = []) ↔
        ∀ r ∈ required_cols, ¬ headerMapGet f.fieldnames r = none := by
      rw [List.filter_eq_nil_iff]
      simp [Option.isNone_iff_eq_none]
    constructor
    · simp only [load_cases]
      split_ifs with h1 h2 h3
      · exact ⟨fun _ => Or.inr ⟨f, rfl, Or.inl h1⟩, fun _ => ⟨_, rfl⟩⟩
      · have hex : ∃ r ∈ required_cols, headerMapGet f.fieldnames r = none := by
          by_contra hc
          push_neg at hc
          exact h2 (hreq.mpr (by simpa using hc))
        exact ⟨fun _ => Or.inr ⟨f, rfl, Or.inr (Or.inl hex)⟩, fun _ => ⟨_, rfl⟩⟩
      · exact ⟨fun _ => Or.inr ⟨f, rfl, Or.inr (Or.inr h3)⟩, fun _ => ⟨_, rfl⟩⟩
      · constructor
        · rintro ⟨e, he⟩
          exact absurd he (by simp)
        · rintro (hn | ⟨f2, hf2, hcond⟩)
          · exact absurd hn (by simp)
          · injection hf2 with hff
            subst hff
            rcases hcond with h | h | h
            · exact absurd h h1
            · rcases h with ⟨r, hr, hrn⟩
              rw [not_ne_iff] at h2
              exact absurd hrn (hreq.mp h2 r hr)
            · exact absurd h h3
    · intro cs h
      simp only [load_cases] at h
      split_ifs at h with h1 h2 h3
      simp only [Except.ok.injEq] at h
      subst h
      exact ⟨h3, f, rfl, rfl⟩

theorem load_cases_fatal_iff_witness :
    ([cellC2] : List Cell) ≠ [] ∧
      ∃ f, (some fileC2 : Option CsvFile) = some f ∧
        [cellC2] = f.rows.filterMap (buildCase f.fieldnames) :=
  (load_cases_fatal_iff (some fileC2)).2 [cellC2] (by with_unfolding_all rfl)
